import Mathlib

/-
  Verification of the request-admission and session-security core of the
  StudySphere repository: bearer-token issuance / verification / revocation
  (src/server/utils/jwt-secure.ts), password policy (PasswordSecurity),
  input sanitization (DatabaseSecurity.sanitizeInput), rate limiting and
  IP-reputation middleware, and startup configuration validation
  (config/environment).  Strings are modelled as lists of characters,
  timestamps as natural numbers of milliseconds, and in-memory maps as
  functions into Option.
-/

/-! ## JS string helpers -/

/-- Characters removed by the JavaScript String.prototype.trim: the
WhiteSpace and LineTerminator sets. -/
def jsWhiteChars : List Char :=
  [' ', '\t', '\n', Char.ofNat 11, Char.ofNat 12, '\r',
   Char.ofNat 160, Char.ofNat 5760,
   Char.ofNat 8192, Char.ofNat 8193, Char.ofNat 8194, Char.ofNat 8195,
   Char.ofNat 8196, Char.ofNat 8197, Char.ofNat 8198, Char.ofNat 8199,
   Char.ofNat 8200, Char.ofNat 8201, Char.ofNat 8202,
   Char.ofNat 8232, Char.ofNat 8233, Char.ofNat 8239,
   Char.ofNat 8287, Char.ofNat 12288, Char.ofNat 65279]

def isJsWhite (c : Char) : Bool := jsWhiteChars.contains c

/-- Drop the matching trailing segment of a list (used to model trimming
the end of a string). -/
def dropTrail (p : Char → Bool) (l : List Char) : List Char :=
  (l.reverse.dropWhile p).reverse

/-- JavaScript String.prototype.trim on a list of characters. -/
def jsTrimL (l : List Char) : List Char :=
  dropTrail isJsWhite (l.dropWhile isJsWhite)

/-- JavaScript String.prototype.trim on a String. -/
def jsTrimS (s : String) : String := String.mk (jsTrimL s.toList)

/-! ## DatabaseSecurity.sanitizeInput (src/server/utils, string case)

The source replaces each guarded character by an escape sequence and then
calls trim: `input.replace(/[\0\x08\x09\x1a\n\r"\x27\\\%]/g, ...).trim()`. -/

/-- The set of characters guarded by the sanitizer regex. -/
def guardedChars : List Char :=
  [Char.ofNat 0, Char.ofNat 8, '\t', Char.ofNat 26, '\n', '\r',
   Char.ofNat 34, Char.ofNat 39, Char.ofNat 92, '%']

def isGuarded (c : Char) : Bool := guardedChars.contains c

/-- The per-character replacement of the sanitizer switch statement. -/
def escapeChar (c : Char) : List Char :=
  if c = Char.ofNat 0 then [Char.ofNat 92, '0']
  else if c = Char.ofNat 8 then [Char.ofNat 92, 'b']
  else if c = '\t' then [Char.ofNat 92, 't']
  else if c = Char.ofNat 26 then [Char.ofNat 92, 'z']
  else if c = '\n' then [Char.ofNat 92, 'n']
  else if c = '\r' then [Char.ofNat 92, 'r']
  else if c = Char.ofNat 34 ∨ c = Char.ofNat 39 ∨ c = Char.ofNat 92 ∨ c = '%' then
    [Char.ofNat 92, c]
  else [c]

/-- The global regex replace of sanitizeInput applied to a whole string. -/
def escapeStr (l : List Char) : List Char := (l.map escapeChar).flatten

/-- DatabaseSecurity.sanitizeInput on the string case: escape the guarded
characters, then trim. -/
def sanitizeInput (l : List Char) : List Char := jsTrimL (escapeStr l)

/-! ## ClaimsCodec (src/server/utils/jwt-secure.ts)

The JWT payload, signing and verification.  The HMAC-SHA256 signature of
the jsonwebtoken library is idealized as collision free: a token value
carries its payload together with the secret it was signed with, and
signature verification checks that this secret equals the configured one.
Timestamps are milliseconds. -/

/-- The part of config/environment consumed by the token module. -/
structure SecConfig where
  jwtSecret : String
  jwtExpiresIn : String
deriving DecidableEq

def digitsToNat (cs : List Char) : Nat :=
  cs.foldl (fun a c => a * 10 + (c.toNat - 48)) 0

/-- parseJwtExpiration of jwt-secure.ts: the regex (digits)(s|m|h|d) mapped
to milliseconds, defaulting to seven days when the string does not match. -/
def parseJwtExpiration (expiresIn : String) : Nat :=
  let cs := expiresIn.toList
  let defaultMs := 7 * 24 * 60 * 60 * 1000
  match cs.getLast? with
  | none => defaultMs
  | some u =>
    let digits := cs.dropLast
    if digits.isEmpty || !digits.all Char.isDigit then defaultMs
    else
      let value := digitsToNat digits
      if u = 's' then value * 1000
      else if u = 'm' then value * 60 * 1000
      else if u = 'h' then value * 60 * 60 * 1000
      else if u = 'd' then value * 24 * 60 * 60 * 1000
      else defaultMs

/-- The JwtPayload interface of jwt-secure.ts together with the registered
claims that jwt.sign adds (issuer, audience, expiry, not-before). -/
structure JwtClaims where
  userId : String
  email : String
  jti : Nat
  iat : Nat
  exp : Nat
  nbf : Option Nat
  iss : String
  aud : String
deriving DecidableEq

/-- A signed token: the claims plus the secret the signature was made
with (idealized collision-free HMAC). -/
structure Token where
  claims : JwtClaims
  sigSecret : String
deriving DecidableEq

/-- generateToken: fresh jti, iat = now, exp = now + configured lifetime,
fixed issuer and audience, signed with the configured secret.  The fresh
random UUID is passed in as the jti argument. -/
def generateToken (cfg : SecConfig) (userId email : String) (jti now : Nat) : Token :=
  { claims :=
      { userId := userId, email := email, jti := jti, iat := now,
        exp := now + parseJwtExpiration cfg.jwtExpiresIn, nbf := none,
        iss := "studysphere", aud := "studysphere-users" },
    sigSecret := cfg.jwtSecret }

/-- The error classes thrown by jwt.verify of the jsonwebtoken library. -/
inductive JwtLibError
  | badSignature
  | notBefore
  | expired
  | badAudience
  | badIssuer
deriving DecidableEq

/-- In the jsonwebtoken library, TokenExpiredError and NotBeforeError are
subclasses of JsonWebTokenError, so an instanceof JsonWebTokenError test is
true for every error the library throws. -/
def isJsonWebTokenError : JwtLibError → Bool := fun _ => true

def isTokenExpiredError : JwtLibError → Bool
  | .expired => true
  | _ => false

def isNotBeforeError : JwtLibError → Bool
  | .notBefore => true
  | _ => false

/-- jwt.verify with algorithm HS256, issuer and audience pinned: checks the
signature, the not-before time, the expiry, the audience and the issuer. -/
def jwtVerify (cfg : SecConfig) (tok : Token) (now : Nat) : Except JwtLibError JwtClaims :=
  if tok.sigSecret ≠ cfg.jwtSecret then .error .badSignature
  else if (match tok.claims.nbf with | some t => decide (now < t) | none => false) then
    .error .notBefore
  else if tok.claims.exp ≤ now then .error .expired
  else if tok.claims.aud ≠ "studysphere-users" then .error .badAudience
  else if tok.claims.iss ≠ "studysphere" then .error .badIssuer
  else .ok tok.claims

/-- The two module-level maps of jwt-secure.ts: revokedTokens
(token to expiration timestamp) and tokenUsage (jti to count and
last-used time). -/
structure TokenState where
  revokedTokens : Token → Option Nat
  tokenUsage : Nat → Option (Nat × Nat)

def emptyTokenState : TokenState :=
  { revokedTokens := fun _ => none, tokenUsage := fun _ => none }

/-- The token-usage update performed by verifyToken on success. -/
def recordUsage (st : TokenState) (jti now : Nat) : TokenState :=
  { st with
    tokenUsage := fun j =>
      if j = jti then some (((st.tokenUsage jti).getD (0, 0)).1 + 1, now)
      else st.tokenUsage j }

/-- verifyToken of jwt-secure.ts.  The revocation check runs first; then
jwt.verify; on success the usage counter is updated; on a library error the
catch block tests instanceof JsonWebTokenError BEFORE the subclasses
TokenExpiredError and NotBeforeError, so the latter two branches are dead
and every library error surfaces as the message "Invalid token". -/
def verifyToken (cfg : SecConfig) (st : TokenState) (tok : Token) (now : Nat) :
    Except String (JwtClaims × TokenState) :=
  if (st.revokedTokens tok).isSome then .error "Token has been revoked"
  else
    match jwtVerify cfg tok now with
    | .ok decoded => .ok (decoded, recordUsage st decoded.jti now)
    | .error e =>
        if isJsonWebTokenError e then .error "Invalid token"
        else if isTokenExpiredError e then .error "Token expired"
        else if isNotBeforeError e then .error "Token not active"
        else .error "rethrown"

/-- revokeToken: stores the token with expiration now + configured
lifetime, and deletes the usage entry of the decoded jti. -/
def revokeToken (cfg : SecConfig) (st : TokenState) (tok : Token) (now : Nat) : TokenState :=
  { revokedTokens := fun t =>
      if t = tok then some (now + parseJwtExpiration cfg.jwtExpiresIn)
      else st.revokedTokens t,
    tokenUsage := fun j => if j = tok.claims.jti then none else st.tokenUsage j }

/-- refreshToken: verify, then revoke the old token, then issue a new token
with the same userId and email.  The fresh jti of the new token is passed
in as newJti. -/
def refreshToken (cfg : SecConfig) (st : TokenState) (tok : Token) (newJti now : Nat) :
    Except String (Token × TokenState) :=
  match verifyToken cfg st tok now with
  | .ok (decoded, st1) =>
      .ok (generateToken cfg decoded.userId decoded.email newJti now,
           revokeToken cfg st1 tok now)
  | .error _ => .error "Cannot refresh invalid token"

/-- cleanupExpiredTokens: drops usage entries idle longer than one hour and
revocation entries whose stored expiration is in the past. -/
def cleanupExpiredTokens (st : TokenState) (now : Nat) : TokenState :=
  { tokenUsage := fun j =>
      match st.tokenUsage j with
      | some u => if 3600000 < now - u.2 then none else some u
      | none => none,
    revokedTokens := fun t =>
      match st.revokedTokens t with
      | some e => if e < now then none else some e
      | none => none }

/-- A concrete configuration used by the closed instances below. -/
def cfg0 : SecConfig :=
  { jwtSecret := "0123456789abcdef0123456789abcdef", jwtExpiresIn := "7d" }

/-- A concrete token issued at time 0 for the closed instances below. -/
def tok0 : Token := generateToken cfg0 "u1" "u1@example.com" 0 0

/-! ## PasswordSecurity (src/server/utils, bcrypt-based password policy) -/

/-- List containment of a needle at the head position. -/
def isPre : List Char → List Char → Bool
  | [], _ => true
  | _ :: _, [] => false
  | a :: as, b :: bs => a = b && isPre as bs

/-- Substring containment (regex literal match) on character lists. -/
def containsSub (needle : List Char) : List Char → Bool
  | [] => needle.isEmpty
  | c :: t => isPre needle (c :: t) || containsSub needle t

def toLowerList (l : List Char) : List Char := l.map Char.toLower

/-- The character class of the special-character regex of
validatePassword. -/
def pwSpecialChars : List Char :=
  ['!', '@', '#', '$', '%', '^', '&', '*', '(', ')', '_', '+', '-', '=',
   '[', ']', Char.ofNat 123, Char.ofNat 125, ';', Char.ofNat 39, ':',
   Char.ofNat 34, Char.ofNat 92, '|', ',', '.', '<', '>', '/', '?']

/-- The common-password patterns of validatePassword; all but the first
are tested case-insensitively, and the digit pattern is unaffected by
lowercasing, so all are matched against the lowercased password. -/
def commonPatterns : List (List Char) :=
  ["123456".toList, "password".toList, "qwerty".toList, "abc123".toList,
   "admin".toList, "login".toList, "welcome".toList]

/-- The sequential-character trigrams of validatePassword. -/
def sequentialPatterns : List (List Char) :=
  ["abc".toList, "bcd".toList, "cde".toList, "def".toList, "efg".toList,
   "fgh".toList, "ghi".toList, "hij".toList, "ijk".toList, "jkl".toList,
   "klm".toList, "lmn".toList, "mno".toList, "nop".toList, "opq".toList,
   "pqr".toList, "qrs".toList, "rst".toList, "stu".toList, "tuv".toList,
   "uvw".toList, "vwx".toList, "wxy".toList, "xyz".toList,
   "123".toList, "234".toList, "345".toList, "456".toList, "567".toList,
   "678".toList, "789".toList]

/-- The regex (.)\1{2,}: three or more equal consecutive characters. -/
def hasTripleRepeat : List Char → Bool
  | a :: b :: c :: t => (a = b && b = c) || hasTripleRepeat (b :: c :: t)
  | _ => false

structure PasswordStrengthResult where
  isStrong : Bool
  score : Int
  suggestions : List String
deriving DecidableEq

/-- PasswordSecurity.validatePassword: length bounds 8..128, one point per
character class, length bonuses at 12 and 16, penalties for common
patterns, repeated characters and sequential characters; strong requires
score at least 4 and no suggestions; the returned score is clamped at 0. -/
def validatePassword (password : List Char) : PasswordStrengthResult :=
  if password.length < 8 then
    { isStrong := false, score := 0,
      suggestions := ["Password must be at least 8 characters"] }
  else if 128 < password.length then
    { isStrong := false, score := 0,
      suggestions := ["Password cannot exceed 128 characters"] }
  else
    let hasLowercase := password.any fun c => 'a' ≤ c && c ≤ 'z'
    let hasUppercase := password.any fun c => 'A' ≤ c && c ≤ 'Z'
    let hasNumbers := password.any Char.isDigit
    let hasSpecialChars := password.any fun c => pwSpecialChars.contains c
    let score1 : Int :=
      (if hasLowercase then 1 else 0) + (if hasUppercase then 1 else 0) +
      (if hasNumbers then 1 else 0) + (if hasSpecialChars then 1 else 0)
    let sugg1 : List String :=
      (if hasLowercase then [] else ["Add lowercase letters"]) ++
      (if hasUppercase then [] else ["Add uppercase letters"]) ++
      (if hasNumbers then [] else ["Add numbers"]) ++
      (if hasSpecialChars then [] else ["Add special characters"])
    let score2 := score1 + (if 12 ≤ password.length then 1 else 0) +
      (if 16 ≤ password.length then 1 else 0)
    let lower := toLowerList password
    let hasCommon := commonPatterns.any fun p => containsSub p lower
    let score3 := score2 - (if hasCommon then 2 else 0)
    let sugg2 := sugg1 ++
      (if hasCommon then ["Avoid common passwords and patterns"] else [])
    let hasRepeat := hasTripleRepeat password
    let score4 := score3 - (if hasRepeat then 1 else 0)
    let sugg3 := sugg2 ++
      (if hasRepeat then ["Avoid repeating characters"] else [])
    let hasSeq := sequentialPatterns.any fun p => containsSub p lower
    let score5 := score4 - (if hasSeq then 1 else 0)
    let sugg4 := sugg3 ++
      (if hasSeq then ["Avoid sequential characters"] else [])
    { isStrong := decide (4 ≤ score5) && sugg4.isEmpty,
      score := max 0 score5, suggestions := sugg4 }

/-- A bcrypt hash value: the cost parameter and the hashed password
(the salt and digest are irrelevant to the claims). -/
structure BcryptHash where
  cost : Int
  pw : List Char
deriving DecidableEq

/-- PasswordSecurity.hashPassword: reject passwords that are not strong,
otherwise hash with cost max(config.bcryptRounds, 12). -/
def hashPassword (bcryptRounds : Int) (password : List Char) :
    Except String BcryptHash :=
  let validation := validatePassword password
  if !validation.isStrong then
    .error ("Password too weak: " ++ String.intercalate ", " validation.suggestions)
  else
    .ok { cost := max bcryptRounds 12, pw := password }

/-! ## RateLimiter (createRateLimit middleware) -/

inductive RateDecision
  | allow
  | deny (retryAfterSeconds : Nat)
deriving DecidableEq

/-- The retryAfter value of the 429 handler installed by createRateLimit:
Math.round(windowMs / 1000), a constant that does not depend on the state
of the window. -/
def handlerRetryAfterSeconds (windowMs : Nat) : Nat := (windowMs + 500) / 1000

/-- The per-key window store of the rate limiter. -/
structure RateLimitState where
  window : String → Option (Nat × Nat)

def emptyRateLimitState : RateLimitState := { window := fun _ => none }

/-- Modelled from the spec: the fixed-window counter itself lives in the
external express-rate-limit package, which the repository only configures;
following section 4.4 of the spec, a request either starts a new window
with count 1 (no window yet, or the window has elapsed) and is allowed,
or increments the count and is allowed while the count stays within max;
over max it is denied.  The retryAfter value carried by the denial is the
one produced by the 429 handler of createRateLimit in the repository:
Math.round(windowMs / 1000). -/
def checkRateLimit (windowMs maxReq : Nat) (s : RateLimitState) (key : String)
    (now : Nat) : RateDecision × RateLimitState :=
  match s.window key with
  | none =>
      (.allow, { window := fun k => if k = key then some (1, now) else s.window k })
  | some (count, start) =>
      if windowMs ≤ now - start then
        (.allow, { window := fun k => if k = key then some (1, now) else s.window k })
      else if count + 1 ≤ maxReq then
        (.allow,
         { window := fun k => if k = key then some (count + 1, start) else s.window k })
      else
        (.deny (handlerRetryAfterSeconds windowMs),
         { window := fun k => if k = key then some (count + 1, start) else s.window k })

/-- The remaining time of the current window, in seconds; what the spec
says the denial should carry. -/
def remainingWindowSeconds (windowMs start now : Nat) : Nat :=
  (windowMs - (now - start)) / 1000

/-- Iterate checkRateLimit over a list of call times for one key, keeping
the final state. -/
def rateStateAfter (windowMs maxReq : Nat) (s : RateLimitState) (key : String) :
    List Nat → RateLimitState
  | [] => s
  | t :: ts =>
      rateStateAfter windowMs maxReq (checkRateLimit windowMs maxReq s key t).2 key ts

/-! ## IpReputationTracker (ipMonitoring middleware, src/unnamed/part_007) -/

/-- One hour, the reset gap of the failed-attempt counter. -/
def reputationWindowMs : Nat := 3600000

/-- The two module-level containers of the middleware: ipAttempts
(ip to count and last-attempt time) and the suspiciousIPs blocked set. -/
structure IpState where
  ipAttempts : String → Option (Nat × Nat)
  suspiciousIPs : String → Bool

def freshIpState : IpState :=
  { ipAttempts := fun _ => none, suspiciousIPs := fun _ => false }

/-- One auth-request outcome as seen by ipMonitoring: a blocked ip is
rejected before any tracking; only failure outcomes (status 401 or 403)
are recorded; the count resets to 0 when the gap since the last failure
exceeds one hour, then increments; at count 10 or more the ip enters the
blocked set. -/
def recordOutcome (s : IpState) (ip : String) (success : Bool) (now : Nat) : IpState :=
  if s.suspiciousIPs ip then s
  else if success then s
  else
    let prev := (s.ipAttempts ip).getD (0, 0)
    let count0 := if reputationWindowMs < now - prev.2 then 0 else prev.1
    let count := count0 + 1
    { ipAttempts := fun k => if k = ip then some (count, now) else s.ipAttempts k,
      suspiciousIPs := fun k =>
        if k = ip && decide (10 ≤ count) then true else s.suspiciousIPs k }

def isBlocked (s : IpState) (ip : String) : Bool := s.suspiciousIPs ip

/-- Iterate recordOutcome with failures at the given times. -/
def failSeq (s : IpState) (ip : String) : List Nat → IpState
  | [] => s
  | t :: ts => failSeq (recordOutcome s ip false t) ip ts

/-- Bool predicate: successive gaps between the previous failure time and
each listed time stay within the reputation window. -/
def gapOk (tl : Nat) : List Nat → Bool
  | [] => true
  | t :: ts => decide (t - tl ≤ reputationWindowMs) && gapOk t ts

/-- The last element of the time list, defaulting to the seed time. -/
def lastT (tl : Nat) : List Nat → Nat
  | [] => tl
  | t :: ts => lastT t ts

/-! ## Environment configuration (config/environment, src/unnamed/part_009) -/

/-- The environment variables read by config/environment; none means the
variable is unset. -/
structure EnvVars where
  nodeEnv : Option String
  port : Option String
  jwtSecretVar : Option String
  jwtExpiresInVar : Option String
  databasePathVar : Option String
  corsOriginsVar : Option String
  allowedHostsVar : Option String
  maxRequestSizeVar : Option String
  bcryptRoundsVar : Option String
  sessionTimeoutVar : Option String
deriving DecidableEq

/-- The JavaScript expression (env.X || default): an unset or empty
variable falls back to the default. -/
def orD (v : Option String) (d : String) : String :=
  match v with
  | some s => if s = "" then d else s
  | none => d

/-- JavaScript String.prototype.split on the comma separator, on character
lists (structurally recursive so it evaluates inside the kernel). -/
def splitOnComma : List Char → List (List Char)
  | [] => [[]]
  | c :: t =>
    if c = ',' then [] :: splitOnComma t
    else
      match splitOnComma t with
      | [] => [[c]]
      | h :: rest => (c :: h) :: rest

/-- The split-and-trim used for the comma-separated list variables. -/
def splitTrim (s : String) : List String :=
  (splitOnComma s.toList).map fun l => String.mk (jsTrimL l)

/-- JavaScript parseInt(s, 10): skip leading whitespace, optional sign,
then the longest run of leading digits; none models NaN. -/
def parseIntJs (s : String) : Option Int :=
  let body (cs : List Char) : Option Nat :=
    let ds := cs.takeWhile Char.isDigit
    if ds.isEmpty then none else some (digitsToNat ds)
  match s.toList.dropWhile isJsWhite with
  | '-' :: rest => (body rest).map fun n => -(n : Int)
  | '+' :: rest => (body rest).map fun n => (n : Int)
  | cs => (body cs).map fun n => (n : Int)

/-- The EnvironmentConfig record of config/environment.  Numeric fields
keep the parseInt result, none standing for NaN. -/
structure EnvironmentConfig where
  nodeEnv : String
  port : Option Int
  jwtSecret : String
  jwtExpiresIn : String
  databasePath : String
  corsOrigins : List String
  allowedHosts : List String
  maxRequestSize : String
  bcryptRounds : Option Int
  sessionTimeout : Option Int
deriving DecidableEq

/-- validateEnvironment: NODE_ENV is required; in production the JWT
secret must be present and at least 32 characters. -/
def validateEnvironment (env : EnvVars) : Except String Unit :=
  if (env.nodeEnv.getD "") = "" then
    .error "Missing required environment variables: NODE_ENV"
  else if env.nodeEnv = some "production" ∧ (env.jwtSecretVar.getD "").length < 32 then
    .error "JWT_SECRET must be at least 32 characters long in production"
  else .ok ()

/-- Modelled from the spec: the development-mode fallback secret is
produced by crypto.randomBytes(64).toString(hex), external randomness that
the claims never touch; it is modelled as a fixed 128-character string. -/
def devGeneratedSecret : String :=
  String.mk (List.replicate 128 'a')

/-- generateSecureSecret: use the provided secret when set; otherwise a
production startup fails and a development startup generates one. -/
def generateSecureSecret (env : EnvVars) : Except String String :=
  if (env.jwtSecretVar.getD "") ≠ "" then .ok (env.jwtSecretVar.getD "")
  else if env.nodeEnv = some "production" then
    .error "JWT_SECRET environment variable is required in production"
  else .ok devGeneratedSecret

/-- parseCorsOrigins: absent origins default to localhost in development
and are a startup error otherwise; present origins are split on commas and
trimmed. -/
def parseCorsOrigins (env : EnvVars) : Except String (List String) :=
  if (env.corsOriginsVar.getD "") = "" then
    if env.nodeEnv = some "development" then
      .ok ["http://localhost:8080", "http://localhost:3000"]
    else .error "CORS_ORIGINS environment variable is required in production"
  else .ok (splitTrim (env.corsOriginsVar.getD ""))

/-- parseAllowedHosts: absent hosts default to localhost in development
and to the empty list otherwise. -/
def parseAllowedHosts (env : EnvVars) : List String :=
  if (env.allowedHostsVar.getD "") = "" then
    if env.nodeEnv = some "development" then ["localhost", "127.0.0.1"] else []
  else splitTrim (env.allowedHostsVar.getD "")

/-- The whole startup sequence of config/environment: validateEnvironment,
then the config record with its defaults, then the bcrypt-rounds floor
check, then the extra production checks (no wildcard CORS origin, secret
length).  Note that JWT_EXPIRES_IN is never validated: when unset it
silently defaults to the string 7d, and an unparsable value only falls
back to seven days inside parseJwtExpiration at use time. -/
def loadConfig (env : EnvVars) : Except String EnvironmentConfig :=
  match validateEnvironment env with
  | .error e => .error e
  | .ok () =>
    match generateSecureSecret env with
    | .error e => .error e
    | .ok secret =>
      match parseCorsOrigins env with
      | .error e => .error e
      | .ok origins =>
        let cfg : EnvironmentConfig :=
          { nodeEnv := orD env.nodeEnv "development",
            port := parseIntJs (orD env.port "3000"),
            jwtSecret := secret,
            jwtExpiresIn := orD env.jwtExpiresInVar "7d",
            databasePath := orD env.databasePathVar "./studysphere.db",
            corsOrigins := origins,
            allowedHosts := parseAllowedHosts env,
            maxRequestSize := orD env.maxRequestSizeVar "10mb",
            bcryptRounds := parseIntJs (orD env.bcryptRoundsVar "12"),
            sessionTimeout := parseIntJs (orD env.sessionTimeoutVar "604800") }
        if (match cfg.bcryptRounds with | some n => decide (n < 10) | none => false) then
          .error "BCRYPT_ROUNDS must be at least 10 for security"
        else if cfg.nodeEnv = "production" then
          if cfg.corsOrigins.contains "*" then
            .error "Wildcard CORS origins not allowed in production"
          else if cfg.jwtSecret.length < 32 then
            .error "JWT_SECRET too weak for production use"
          else .ok cfg
        else .ok cfg

/-- A production environment with everything valid except that the token
lifetime variable is unset. -/
def prodEnvNoLifetime : EnvVars :=
  { nodeEnv := some "production", port := none,
    jwtSecretVar := some "0123456789abcdef0123456789abcdef",
    jwtExpiresInVar := none, databasePathVar := none,
    corsOriginsVar := some "https://app.example.com",
    allowedHostsVar := none, maxRequestSizeVar := none,
    bcryptRoundsVar := some "12", sessionTimeoutVar := none }

/-- The same production environment with an unparsable token lifetime. -/
def prodEnvBadLifetime : EnvVars :=
  { prodEnvNoLifetime with jwtExpiresInVar := some "nonsense" }

/-- The same production environment with a short signing secret. -/
def prodEnvShortSecret : EnvVars :=
  { prodEnvNoLifetime with jwtSecretVar := some "short" }

/-! ## Helper lemmas about trimming and escaping -/

lemma dropTrail_eq_rdropWhile (p : Char → Bool) (l : List Char) :
    dropTrail p l = List.rdropWhile p l := rfl

lemma dropWhile_prefix_self {p : Char → Bool} {l v : List Char}
    (hl : List.dropWhile p l = l) (hv : v <+: l) : List.dropWhile p v = v := by
  rcases hv with ⟨t, rfl⟩
  cases v with
  | nil => rfl
  | cons a w =>
    rw [List.dropWhile_eq_self_iff] at hl ⊢
    intro h0
    have := hl (by simp)
    simpa using this

lemma jsTrimL_idempotent (l : List Char) : jsTrimL (jsTrimL l) = jsTrimL l := by
  unfold jsTrimL
  rw [dropTrail_eq_rdropWhile, dropTrail_eq_rdropWhile,
    dropWhile_prefix_self (List.dropWhile_idempotent isJsWhite l)
      (List.rdropWhile_prefix isJsWhite (l.dropWhile isJsWhite)),
    List.rdropWhile_idempotent]

lemma mem_of_mem_jsTrimL {c : Char} {l : List Char} (h : c ∈ jsTrimL l) : c ∈ l := by
  unfold jsTrimL at h
  rw [dropTrail_eq_rdropWhile] at h
  exact (List.dropWhile_suffix isJsWhite).subset
    ((List.rdropWhile_prefix isJsWhite _).subset h)

lemma escapeChar_safe {c : Char} (h : isGuarded c = false) : escapeChar c = [c] := by
  simp only [isGuarded, guardedChars, List.contains, List.elem_eq_mem, List.mem_cons,
    List.not_mem_nil, or_false, decide_eq_false_iff_not, not_or] at h
  obtain ⟨h1, h2, h3, h4, h5, h6, h7, h8, h9, h10⟩ := h
  simp [escapeChar, h1, h2, h3, h4, h5, h6, h7, h8, h9, h10]

lemma escapeStr_cons (a : Char) (t : List Char) :
    escapeStr (a :: t) = escapeChar a ++ escapeStr t := rfl

lemma escapeStr_safe {l : List Char} (h : ∀ c ∈ l, isGuarded c = false) :
    escapeStr l = l := by
  induction l with
  | nil => rfl
  | cons a t ih =>
    rw [escapeStr_cons, escapeChar_safe (h a (List.mem_cons_self a t)),
      ih fun c hc => h c (List.mem_cons_of_mem a hc)]
    rfl

lemma dropWhile_append_all {p : Char → Bool} {a : List Char} (b : List Char)
    (h : ∀ c ∈ a, p c = true) :
    List.dropWhile p (a ++ b) = List.dropWhile p b := by
  induction a with
  | nil => rfl
  | cons x t ih =>
    rw [List.cons_append, List.dropWhile_cons, if_pos (h x (List.mem_cons_self x t))]
    exact ih fun c hc => h c (List.mem_cons_of_mem x hc)

lemma rdropWhile_append_all {p : Char → Bool} {b : List Char} (a : List Char)
    (h : ∀ c ∈ b, p c = true) :
    List.rdropWhile p (a ++ b) = List.rdropWhile p a := by
  unfold List.rdropWhile
  rw [List.reverse_append, dropWhile_append_all a.reverse
    fun c hc => h c (List.mem_reverse.mp hc)]

/-- C9: for every string s containing none of the guarded characters
(quotes, backslash, control characters, percent sign), applying
DatabaseSecurity.sanitizeInput twice yields the same result as applying it
once. -/
theorem sanitize_idempotent_on_safe (s : List Char)
    (h : ∀ c ∈ s, isGuarded c = false) :
    sanitizeInput (sanitizeInput s) = sanitizeInput s := by
  have e1 : sanitizeInput s = jsTrimL s := by
    rw [sanitizeInput, escapeStr_safe h]
  rw [e1, sanitizeInput,
    escapeStr_safe fun c hc => h c (mem_of_mem_jsTrimL hc),
    jsTrimL_idempotent]

/-- Witness for C9 at the concrete safe input "  hello  ". -/
theorem sanitize_idempotent_on_safe_witness :
    (∀ c ∈ "  hello  ".toList, isGuarded c = false) ∧
    sanitizeInput (sanitizeInput "  hello  ".toList) = sanitizeInput "  hello  ".toList :=
  ⟨by decide, sanitize_idempotent_on_safe "  hello  ".toList (by decide)⟩

/-- C10 counterexample: the tab character is whitespace for trim, so the
string made of the single tab consists only of whitespace, yet
sanitizeInput maps it to the two-character escape backslash-t rather than
to the empty string, because escaping happens before trimming. -/
theorem sanitize_whitespace_only_cex :
    (∀ c ∈ ['\t'], isJsWhite c = true) ∧
    sanitizeInput ['\t'] = [Char.ofNat 92, 't'] ∧
    sanitizeInput ['\t'] ≠ [] := by
  refine ⟨by decide, by decide, by decide⟩

/-- C10 as amended: sanitizeInput returns the escaped string with its
leading and trailing whitespace removed; a string made only of non-guarded
whitespace (spaces) maps to the empty string; and for content with no
guarded characters and non-whitespace endpoints, surrounding spaces are
removed while the content itself is preserved verbatim.  (Whitespace-only
strings containing guarded whitespace characters, such as tab, are instead
mapped to their escape sequences.) -/
theorem sanitize_trim_amended (s ws1 ws2 : List Char)
    (h1 : ∀ c ∈ ws1, c = ' ') (h2 : ∀ c ∈ ws2, c = ' ')
    (hg : ∀ c ∈ s, isGuarded c = false)
    (hh : ∀ c, s.head? = some c → isJsWhite c = false)
    (hl : ∀ c, s.getLast? = some c → isJsWhite c = false) :
    sanitizeInput (ws1 ++ s ++ ws2) = s := by
  have hsafe : ∀ c ∈ ws1 ++ s ++ ws2, isGuarded c = false := by
    intro c hc
    rcases List.mem_append.mp hc with hc' | hc'
    · rcases List.mem_append.mp hc' with hc'' | hc''
      · rw [h1 c hc'']; decide
      · exact hg c hc''
    · rw [h2 c hc']; decide
  rw [sanitizeInput, escapeStr_safe hsafe, jsTrimL, List.append_assoc,
    dropWhile_append_all (s ++ ws2) (fun c hc => by rw [h1 c hc]; decide),
    dropTrail_eq_rdropWhile]
  cases s with
  | nil =>
    rw [List.nil_append, ← List.append_nil ws2,
      dropWhile_append_all ([] : List Char) (fun c hc => by rw [h2 c hc]; decide)]
    rfl
  | cons a t =>
    have ha : isJsWhite a = false := hh a rfl
    rw [List.cons_append, List.dropWhile_cons, if_neg (by simp [ha]), ← List.cons_append,
      rdropWhile_append_all (a :: t) (fun c hc => by rw [h2 c hc]; decide),
      List.rdropWhile_eq_self_iff.mpr]
    intro hne
    rw [hl ((a :: t).getLast hne) (List.getLast?_eq_getLast (a :: t) hne)]
    simp

/-- Witness for C10 as amended, at spaces around the word hello. -/
theorem sanitize_trim_amended_witness :
    ((∀ c ∈ [' ', ' '], c = ' ') ∧ (∀ c ∈ [' '], c = ' ') ∧
      (∀ c ∈ "hello".toList, isGuarded c = false)) ∧
    sanitizeInput ([' ', ' '] ++ "hello".toList ++ [' ']) = "hello".toList :=
  ⟨⟨by decide, by decide, by decide⟩,
    sanitize_trim_amended "hello".toList [' ', ' '] [' ']
      (by decide) (by decide) (by decide) (by decide) (by decide)⟩

/-! ## Helper lemmas about the token module -/

lemma jwtVerify_ok {cfg : SecConfig} {tok : Token} {now : Nat}
    (hsig : tok.sigSecret = cfg.jwtSecret) (hnbf : tok.claims.nbf = none)
    (hexp : now < tok.claims.exp) (haud : tok.claims.aud = "studysphere-users")
    (hiss : tok.claims.iss = "studysphere") :
    jwtVerify cfg tok now = .ok tok.claims := by
  rw [jwtVerify, if_neg (by simp [hsig]), if_neg (by simp [hnbf]),
    if_neg (by simp [Nat.not_le.mpr hexp]), if_neg (by simp [haud]),
    if_neg (by simp [hiss])]

lemma verifyToken_ok {cfg : SecConfig} {st : TokenState} {tok : Token} {now : Nat}
    (hrev : st.revokedTokens tok = none) (hsig : tok.sigSecret = cfg.jwtSecret)
    (hnbf : tok.claims.nbf = none) (hexp : now < tok.claims.exp)
    (haud : tok.claims.aud = "studysphere-users") (hiss : tok.claims.iss = "studysphere") :
    verifyToken cfg st tok now = .ok (tok.claims, recordUsage st tok.claims.jti now) := by
  rw [verifyToken, if_neg (by simp [hrev]), jwtVerify_ok hsig hnbf hexp haud hiss]

lemma verifyToken_revoked {cfg : SecConfig} {st : TokenState} {tok : Token} {now e : Nat}
    (h : st.revokedTokens tok = some e) :
    verifyToken cfg st tok now = .error "Token has been revoked" := by
  rw [verifyToken, if_pos (by simp [h])]

/-- Inversion of a successful verifyToken: the returned claims are the
token claims and the revocation map is unchanged in the returned state. -/
lemma verifyToken_ok_inv {cfg : SecConfig} {st : TokenState} {tok : Token} {now : Nat}
    {cl : JwtClaims} {st1 : TokenState}
    (h : verifyToken cfg st tok now = .ok (cl, st1)) :
    cl = tok.claims ∧ st1.revokedTokens = st.revokedTokens := by
  rw [verifyToken] at h
  split at h
  · exact absurd h (by simp)
  · split at h
    · rename_i decoded hdec
      have hd : decoded = tok.claims := by
        rw [jwtVerify] at hdec
        split at hdec
        · exact absurd hdec (by simp)
        · split at hdec
          · exact absurd hdec (by simp)
          · split at hdec
            · exact absurd hdec (by simp)
            · split at hdec
              · exact absurd hdec (by simp)
              · split at hdec
                · exact absurd hdec (by simp)
                · exact (Except.ok.injEq _ _).mp hdec.symm
      obtain ⟨hcl, hst⟩ := Prod.mk.injEq .. ▸ (Except.ok.injEq _ _).mp h
      refine ⟨by rw [← hcl, hd], ?_⟩
      rw [← hst, recordUsage]
    · split at h <;> first | exact absurd h (by simp) | skip
      split at h <;> first | exact absurd h (by simp) | skip
      split at h <;> exact absurd h (by simp)

/-- C1: verifying a token freshly produced by generateToken succeeds and
returns claims whose subject id and email equal the issued ones.  The
hypotheses state that the fresh token is not already in the revocation map
(its jti is a fresh random UUID) and that the configured lifetime is
positive. -/
theorem token_round_trip (cfg : SecConfig) (st : TokenState) (userId email : String)
    (jti now : Nat)
    (hfresh : st.revokedTokens (generateToken cfg userId email jti now) = none)
    (hpos : 0 < parseJwtExpiration cfg.jwtExpiresIn) :
    ∃ cl st2,
      verifyToken cfg st (generateToken cfg userId email jti now) now = .ok (cl, st2) ∧
      cl.userId = userId ∧ cl.email = email := by
  refine ⟨(generateToken cfg userId email jti now).claims, _,
    verifyToken_ok hfresh rfl rfl ?_ rfl rfl, rfl, rfl⟩
  show now < now + parseJwtExpiration cfg.jwtExpiresIn
  omega

/-- Witness for C1 at a concrete configuration, user and time. -/
theorem token_round_trip_witness :
    emptyTokenState.revokedTokens (generateToken cfg0 "u1" "u1@example.com" 0 0) = none ∧
    0 < parseJwtExpiration cfg0.jwtExpiresIn ∧
    ∃ cl st2,
      verifyToken cfg0 emptyTokenState (generateToken cfg0 "u1" "u1@example.com" 0 0) 0
        = .ok (cl, st2) ∧ cl.userId = "u1" ∧ cl.email = "u1@example.com" :=
  ⟨rfl, by decide,
   token_round_trip cfg0 emptyTokenState "u1" "u1@example.com" 0 0 rfl (by decide)⟩

/-- C2, evaluated at the failing input: the token issued at time 0 with
the default 7-day lifetime, verified 1000 ms after its expiry.  The
underlying library error is TokenExpiredError, but because the catch block
of verifyToken tests instanceof JsonWebTokenError first and
TokenExpiredError is a subclass of JsonWebTokenError, the surfaced failure
is the generic "Invalid token", not the intended "Token expired" of the
dead branch below it.  Verification 1000 ms before expiry succeeds. -/
theorem expired_token_error_kind_bug :
    jwtVerify cfg0 tok0 604801000 = .error .expired ∧
    verifyToken cfg0 emptyTokenState tok0 604801000 = .error "Invalid token" ∧
    "Invalid token" ≠ "Token expired" ∧
    (verifyToken cfg0 emptyTokenState tok0 604799000).toOption.isSome = true := by
  refine ⟨rfl, rfl, by decide, rfl⟩

/-- C3: a successful refresh revokes the old token (every later
verification of it fails with the revoked error) and the new token
verifies with the same subject and email.  Hypotheses: the old token
verified successfully, the new jti is fresh (distinct from the old one),
the new token is not already in the revocation map, and the configured
lifetime is positive. -/
theorem refresh_invalidates_old_token (cfg : SecConfig) (st : TokenState) (tok : Token)
    (cl : JwtClaims) (st1 : TokenState) (newJti now : Nat)
    (hv : verifyToken cfg st tok now = .ok (cl, st1))
    (hjti : newJti ≠ tok.claims.jti)
    (hfresh : st.revokedTokens (generateToken cfg cl.userId cl.email newJti now) = none)
    (hpos : 0 < parseJwtExpiration cfg.jwtExpiresIn) :
    ∃ st2,
      refreshToken cfg st tok newJti now
        = .ok (generateToken cfg cl.userId cl.email newJti now, st2) ∧
      (∀ t, verifyToken cfg st2 tok t = .error "Token has been revoked") ∧
      ∃ cl2 st3,
        verifyToken cfg st2 (generateToken cfg cl.userId cl.email newJti now) now
          = .ok (cl2, st3) ∧ cl2.userId = cl.userId ∧ cl2.email = cl.email := by
  obtain ⟨hcl, hst⟩ := verifyToken_ok_inv hv
  refine ⟨revokeToken cfg st1 tok now, ?_, ?_, ?_⟩
  · rw [refreshToken, hv]
  · intro t
    exact verifyToken_revoked
      (e := now + parseJwtExpiration cfg.jwtExpiresIn) (by simp [revokeToken])
  · have hne : generateToken cfg cl.userId cl.email newJti now ≠ tok := by
      intro he
      exact hjti (by rw [← he]; rfl)
    have hrev2 : (revokeToken cfg st1 tok now).revokedTokens
        (generateToken cfg cl.userId cl.email newJti now) = none := by
      simp only [revokeToken, if_neg hne]
      rw [hst]
      exact hfresh
    refine ⟨(generateToken cfg cl.userId cl.email newJti now).claims, _,
      verifyToken_ok hrev2 rfl rfl ?_ rfl rfl, rfl, rfl⟩
    show now < now + parseJwtExpiration cfg.jwtExpiresIn
    omega

/-- Witness for C3 at a concrete token and times. -/
theorem refresh_invalidates_old_token_witness :
    verifyToken cfg0 emptyTokenState tok0 5
        = .ok (tok0.claims, recordUsage emptyTokenState tok0.claims.jti 5) ∧
    (1 : Nat) ≠ tok0.claims.jti ∧
    emptyTokenState.revokedTokens
        (generateToken cfg0 tok0.claims.userId tok0.claims.email 1 5) = none ∧
    ∃ st2,
      refreshToken cfg0 emptyTokenState tok0 1 5
        = .ok (generateToken cfg0 tok0.claims.userId tok0.claims.email 1 5, st2) ∧
      (∀ t, verifyToken cfg0 st2 tok0 t = .error "Token has been revoked") ∧
      ∃ cl2 st3,
        verifyToken cfg0 st2 (generateToken cfg0 tok0.claims.userId tok0.claims.email 1 5) 5
          = .ok (cl2, st3) ∧ cl2.userId = tok0.claims.userId ∧
          cl2.email = tok0.claims.email :=
  ⟨rfl, by decide, rfl,
   refresh_invalidates_old_token cfg0 emptyTokenState tok0 tok0.claims
     (recordUsage emptyTokenState tok0.claims.jti 5) 1 5 rfl (by decide) rfl (by decide)⟩

/-- C4 counterexample: tok0 is issued at time 0, so its natural expiry is
604800000 (7 days); revoking it at time 1000 stores the expiry 604801000,
which exceeds the natural expiry; and a sweep at time 604800500, after the
natural expiry has passed, does not remove the entry. -/
theorem revocation_outlives_natural_expiry_cex :
    tok0.claims.exp = 604800000 ∧
    (revokeToken cfg0 emptyTokenState tok0 1000).revokedTokens tok0 = some 604801000 ∧
    604800000 < 604801000 ∧ (604800000 : Nat) < 604800500 ∧
    (cleanupExpiredTokens (revokeToken cfg0 emptyTokenState tok0 1000)
        604800500).revokedTokens tok0 = some 604801000 := by
  refine ⟨by decide, by decide, by decide, by decide, by decide⟩

/-- C4 as amended: the expiry stored by revokeToken is the revocation time
plus the configured lifetime (hence at most the configured max lifetime
from the moment of revocation, but possibly later than the issuance time
plus the lifetime), and the periodic sweep removes the entry once that
stored expiry has passed. -/
theorem revocation_entry_lifetime_amended (cfg : SecConfig) (st : TokenState)
    (tok : Token) (now : Nat) :
    (revokeToken cfg st tok now).revokedTokens tok
        = some (now + parseJwtExpiration cfg.jwtExpiresIn) ∧
    ∀ now2, now + parseJwtExpiration cfg.jwtExpiresIn < now2 →
      (cleanupExpiredTokens (revokeToken cfg st tok now) now2).revokedTokens tok = none := by
  constructor
  · simp [revokeToken]
  · intro now2 h
    simp [cleanupExpiredTokens, revokeToken, h]

/-- Witness for C4 as amended at a concrete token and sweep time. -/
theorem revocation_entry_lifetime_witness :
    (revokeToken cfg0 emptyTokenState tok0 1000).revokedTokens tok0
        = some (1000 + parseJwtExpiration cfg0.jwtExpiresIn) ∧
    1000 + parseJwtExpiration cfg0.jwtExpiresIn < 604802000 ∧
    (cleanupExpiredTokens (revokeToken cfg0 emptyTokenState tok0 1000)
        604802000).revokedTokens tok0 = none :=
  ⟨(revocation_entry_lifetime_amended cfg0 emptyTokenState tok0 1000).1, by decide,
   (revocation_entry_lifetime_amended cfg0 emptyTokenState tok0 1000).2 604802000 (by decide)⟩

/-- C5 counterexample: the scenario password "Abcd123!" contains the
sequential runs abc, bcd and 123, so validatePassword scores it 3 with an
outstanding suggestion, it is not strong, and hashPassword rejects it
instead of producing a hash. -/
theorem scenario_password_not_strong_cex :
    validatePassword "Abcd123!".toList
      = { isStrong := false, score := 3,
          suggestions := ["Avoid sequential characters"] } ∧
    hashPassword 12 "Abcd123!".toList
      = .error "Password too weak: Avoid sequential characters" := by
  refine ⟨by decide, rfl⟩

/-- C5 as amended: "Abcd123!" is scored as NOT strong (the
sequential-character penalty leaves score 3 with a suggestion), so hashing
it fails with the weak-password error; for every password that the policy
scores strong, hashing succeeds and the cost parameter max(rounds, 12) is
at least the configured floor 12. -/
theorem password_hash_cost_amended :
    (validatePassword "Abcd123!".toList).isStrong = false ∧
    ∀ (rounds : Int) (p : List Char), (validatePassword p).isStrong = true →
      hashPassword rounds p = .ok { cost := max rounds 12, pw := p } ∧
      12 ≤ max rounds 12 := by
  refine ⟨by decide, ?_⟩
  intro rounds p h
  constructor
  · rw [hashPassword]
    simp [h]
  · exact le_max_right rounds 12

/-- Witness for C5 as amended at the strong password of the spec test
list. -/
theorem password_hash_cost_witness :
    (validatePassword "Tr0ub4dor&3".toList).isStrong = true ∧
    hashPassword 12 "Tr0ub4dor&3".toList
      = .ok { cost := max 12 12, pw := "Tr0ub4dor&3".toList } ∧
    12 ≤ max (12 : Int) 12 :=
  ⟨by decide,
   (password_hash_cost_amended.2 12 "Tr0ub4dor&3".toList (by decide)).1,
   (password_hash_cost_amended.2 12 "Tr0ub4dor&3".toList (by decide)).2⟩

/-! ## Helper lemmas about the rate limiter -/

lemma checkRateLimit_fresh (windowMs maxReq now : Nat) {s : RateLimitState}
    {key : String} (h : s.window key = none) :
    (checkRateLimit windowMs maxReq s key now).1 = .allow ∧
    (checkRateLimit windowMs maxReq s key now).2.window key = some (1, now) := by
  rw [checkRateLimit, h]
  exact ⟨rfl, by simp⟩

lemma checkRateLimit_count (maxReq : Nat) {windowMs : Nat} {s : RateLimitState}
    {key : String} {now c start : Nat} (h : s.window key = some (c, start))
    (hw : now - start < windowMs) (hc : c + 1 ≤ maxReq) :
    (checkRateLimit windowMs maxReq s key now).1 = .allow ∧
    (checkRateLimit windowMs maxReq s key now).2.window key = some (c + 1, start) := by
  simp only [checkRateLimit, h]
  rw [if_neg (Nat.not_le.mpr hw), if_pos hc]
  exact ⟨rfl, by simp⟩

lemma checkRateLimit_deny (maxReq : Nat) {windowMs : Nat} {s : RateLimitState}
    {key : String} {now c start : Nat} (h : s.window key = some (c, start))
    (hw : now - start < windowMs) (hc : maxReq < c + 1) :
    (checkRateLimit windowMs maxReq s key now).1
        = .deny (handlerRetryAfterSeconds windowMs) ∧
    (checkRateLimit windowMs maxReq s key now).2.window key = some (c + 1, start) := by
  simp only [checkRateLimit, h]
  rw [if_neg (Nat.not_le.mpr hw), if_neg (Nat.not_le.mpr hc)]
  exact ⟨rfl, by simp⟩

lemma checkRateLimit_elapsed (maxReq : Nat) {windowMs : Nat} {s : RateLimitState}
    {key : String} {now c start : Nat} (h : s.window key = some (c, start))
    (hw : windowMs ≤ now - start) :
    (checkRateLimit windowMs maxReq s key now).1 = .allow ∧
    (checkRateLimit windowMs maxReq s key now).2.window key = some (1, now) := by
  simp only [checkRateLimit, h]
  rw [if_pos hw]
  exact ⟨rfl, by simp⟩

lemma rateStateAfter_cons (windowMs maxReq : Nat) (s : RateLimitState) (key : String)
    (t : Nat) (ts : List Nat) :
    rateStateAfter windowMs maxReq s key (t :: ts)
      = rateStateAfter windowMs maxReq (checkRateLimit windowMs maxReq s key t).2 key ts :=
  rfl

/-- C6 counterexample: with max 5 and a 60-second window, five calls at
time 0 all pass and the sixth call 30 seconds into the window is denied;
the repository handler reports retryAfter 60 (the full window), while the
remaining time of the current window is 30 seconds, so the denial does NOT
carry the remaining window time. -/
theorem rate_retry_after_cex :
    (checkRateLimit 60000 5
        (rateStateAfter 60000 5 emptyRateLimitState "k" [0, 0, 0, 0, 0]) "k" 30000).1
      = .deny 60 ∧
    remainingWindowSeconds 60000 0 30000 = 30 ∧
    (60 : Nat) ≠ 30 := by
  refine ⟨by decide, by decide, by decide⟩

/-- C6 as amended: for the tier max 5 per 60-second window and any single
client key, the first five calls within one window all allow; the sixth is
denied, and the denial carries the constant retryAfter
Math.round(windowMs / 1000) = 60 produced by the repository 429 handler
(which is at most 60, but is the full window length rather than the
remaining window time); after the window elapses, the next call allows
again. -/
theorem rate_limit_window_amended (key : String) (t1 t2 t3 t4 t5 t6 t7 : Nat)
    (h2 : t2 - t1 < 60000) (h3 : t3 - t1 < 60000) (h4 : t4 - t1 < 60000)
    (h5 : t5 - t1 < 60000) (h6 : t6 - t1 < 60000) (h7 : 60000 ≤ t7 - t1) :
    (checkRateLimit 60000 5 (rateStateAfter 60000 5 emptyRateLimitState key []) key t1).1
        = .allow ∧
    (checkRateLimit 60000 5 (rateStateAfter 60000 5 emptyRateLimitState key [t1]) key t2).1
        = .allow ∧
    (checkRateLimit 60000 5 (rateStateAfter 60000 5 emptyRateLimitState key [t1, t2])
        key t3).1 = .allow ∧
    (checkRateLimit 60000 5 (rateStateAfter 60000 5 emptyRateLimitState key [t1, t2, t3])
        key t4).1 = .allow ∧
    (checkRateLimit 60000 5 (rateStateAfter 60000 5 emptyRateLimitState key
        [t1, t2, t3, t4]) key t5).1 = .allow ∧
    (checkRateLimit 60000 5 (rateStateAfter 60000 5 emptyRateLimitState key
        [t1, t2, t3, t4, t5]) key t6).1 = .deny (handlerRetryAfterSeconds 60000) ∧
    handlerRetryAfterSeconds 60000 = 60 ∧
    (checkRateLimit 60000 5 (rateStateAfter 60000 5 emptyRateLimitState key
        [t1, t2, t3, t4, t5, t6]) key t7).1 = .allow := by
  have h0 : emptyRateLimitState.window key = none := rfl
  have s1 := checkRateLimit_fresh 60000 5 t1 h0
  have s2 := checkRateLimit_count 5 s1.2 h2 (by omega)
  have s3 := checkRateLimit_count 5 s2.2 h3 (by omega)
  have s4 := checkRateLimit_count 5 s3.2 h4 (by omega)
  have s5 := checkRateLimit_count 5 s4.2 h5 (by omega)
  have s6 := checkRateLimit_deny 5 s5.2 h6 (by omega)
  have s7 := checkRateLimit_elapsed 5 s6.2 h7
  exact ⟨s1.1, s2.1, s3.1, s4.1, s5.1, s6.1, rfl, s7.1⟩

/-- Witness for C6 as amended at concrete call times. -/
theorem rate_limit_window_witness :
    ((10000 : Nat) - 0 < 60000 ∧ (20000 : Nat) - 0 < 60000 ∧
      (30000 : Nat) - 0 < 60000 ∧ (40000 : Nat) - 0 < 60000 ∧
      (50000 : Nat) - 0 < 60000 ∧ (60000 : Nat) ≤ 61000 - 0) ∧
    ((checkRateLimit 60000 5 (rateStateAfter 60000 5 emptyRateLimitState "k" []) "k" 0).1
        = .allow ∧
      (checkRateLimit 60000 5 (rateStateAfter 60000 5 emptyRateLimitState "k" [0])
          "k" 10000).1 = .allow ∧
      (checkRateLimit 60000 5 (rateStateAfter 60000 5 emptyRateLimitState "k" [0, 10000])
          "k" 20000).1 = .allow ∧
      (checkRateLimit 60000 5 (rateStateAfter 60000 5 emptyRateLimitState "k"
          [0, 10000, 20000]) "k" 30000).1 = .allow ∧
      (checkRateLimit 60000 5 (rateStateAfter 60000 5 emptyRateLimitState "k"
          [0, 10000, 20000, 30000]) "k" 40000).1 = .allow ∧
      (checkRateLimit 60000 5 (rateStateAfter 60000 5 emptyRateLimitState "k"
          [0, 10000, 20000, 30000, 40000]) "k" 50000).1
        = .deny (handlerRetryAfterSeconds 60000) ∧
      handlerRetryAfterSeconds 60000 = 60 ∧
      (checkRateLimit 60000 5 (rateStateAfter 60000 5 emptyRateLimitState "k"
          [0, 10000, 20000, 30000, 40000, 50000]) "k" 61000).1 = .allow) :=
  ⟨⟨by decide, by decide, by decide, by decide, by decide, by decide⟩,
   rate_limit_window_amended "k" 0 10000 20000 30000 40000 50000 61000
     (by decide) (by decide) (by decide) (by decide) (by decide) (by decide)⟩

/-! ## Helper lemmas about the IP reputation tracker -/

lemma recordOutcome_fail {s : IpState} {ip : String} {now c tl : Nat}
    (hb : ∀ k, s.suspiciousIPs k = false) (ha : s.ipAttempts ip = some (c, tl))
    (hgap : now - tl ≤ reputationWindowMs) :
    (recordOutcome s ip false now).ipAttempts ip = some (c + 1, now) ∧
    (∀ k, k ≠ ip → (recordOutcome s ip false now).suspiciousIPs k = false) ∧
    (recordOutcome s ip false now).suspiciousIPs ip = decide (10 ≤ c + 1) := by
  rw [recordOutcome, if_neg (by simp [hb ip]), if_neg (by simp)]
  simp only [ha, Option.getD_some]
  rw [if_neg (Nat.not_lt.mpr hgap)]
  refine ⟨by simp, fun k hk => by simp [hk, hb k], ?_⟩
  by_cases h10 : 10 ≤ c + 1 <;> simp [h10, hb ip]

/-- Invariant: a chain of failures whose gaps stay within the reputation
window accumulates one count per failure and blocks nothing while the
count stays at most 9. -/
lemma failSeq_inv (ip : String) : ∀ (ts : List Nat) (s : IpState) (c tl : Nat),
    (∀ k, s.suspiciousIPs k = false) → s.ipAttempts ip = some (c, tl) →
    gapOk tl ts = true → c + ts.length ≤ 9 →
    (∀ k, (failSeq s ip ts).suspiciousIPs k = false) ∧
    (failSeq s ip ts).ipAttempts ip = some (c + ts.length, lastT tl ts) := by
  intro ts
  induction ts with
  | nil => intro s c tl hb ha _ _; exact ⟨hb, by simpa using ha⟩
  | cons t ts ih =>
    intro s c tl hb ha hgap hcount
    rw [List.length_cons] at hcount
    have hg1 : t - tl ≤ reputationWindowMs := by
      have := hgap
      rw [gapOk] at this
      exact of_decide_eq_true (Bool.and_elim_left this)
    have hg2 : gapOk t ts = true := by
      rw [gapOk] at hgap
      exact Bool.and_elim_right hgap
    obtain ⟨ha1, hb1, hip1⟩ := recordOutcome_fail hb ha hg1
    have hblock : ∀ k, (recordOutcome s ip false t).suspiciousIPs k = false := by
      intro k
      by_cases hk : k = ip
      · subst hk
        rw [hip1]
        simp only [decide_eq_false_iff_not]
        omega
      · exact hb1 k hk
    have := ih (recordOutcome s ip false t) (c + 1) t hblock ha1 hg2 (by omega)
    rw [failSeq]
    refine ⟨this.1, ?_⟩
    rw [this.2, List.length_cons, lastT]
    congr 2
    omega

/-- C7: from a fresh state, 9 failure outcomes whose gaps stay within the
reputation window leave the ip unblocked; the 10th failure blocks it; and
recording a success outcome never changes the state at all (in particular
it never reduces the failure count; only a time gap can reset it). -/
theorem ip_block_threshold (ip : String) (t0 : Nat) (ts : List Nat) (t9 : Nat)
    (hlen : ts.length = 8) (hgap : gapOk t0 ts = true)
    (hgap9 : t9 - lastT t0 ts ≤ reputationWindowMs) :
    isBlocked (failSeq freshIpState ip (t0 :: ts)) ip = false ∧
    isBlocked (recordOutcome (failSeq freshIpState ip (t0 :: ts)) ip false t9) ip = true ∧
    ∀ (s : IpState) (ip2 : String) (now : Nat), recordOutcome s ip2 true now = s := by
  have h1a : (recordOutcome freshIpState ip false t0).ipAttempts ip = some (1, t0) := by
    simp [recordOutcome, freshIpState, ite_self]
  have h1b : ∀ k, (recordOutcome freshIpState ip false t0).suspiciousIPs k = false := by
    intro k
    simp [recordOutcome, freshIpState, ite_self]
  have inv := failSeq_inv ip ts (recordOutcome freshIpState ip false t0) 1 t0
    h1b h1a hgap (by omega)
  have hseq : failSeq freshIpState ip (t0 :: ts)
      = failSeq (recordOutcome freshIpState ip false t0) ip ts := rfl
  have ha9 : (failSeq freshIpState ip (t0 :: ts)).ipAttempts ip
      = some (9, lastT t0 ts) := by
    rw [hseq, inv.2, hlen]
  have hb9 : ∀ k, (failSeq freshIpState ip (t0 :: ts)).suspiciousIPs k = false := by
    rw [hseq]
    exact inv.1
  obtain ⟨_, _, hip10⟩ := recordOutcome_fail hb9 ha9 hgap9
  refine ⟨hb9 ip, ?_, ?_⟩
  · rw [isBlocked, hip10]
    decide
  · intro s ip2 now
    simp [recordOutcome]

/-- Witness for C7 at a concrete ip and failure times 0 through 9. -/
theorem ip_block_threshold_witness :
    (([1, 2, 3, 4, 5, 6, 7, 8] : List Nat).length = 8 ∧
      gapOk 0 [1, 2, 3, 4, 5, 6, 7, 8] = true ∧
      9 - lastT 0 [1, 2, 3, 4, 5, 6, 7, 8] ≤ reputationWindowMs) ∧
    isBlocked (failSeq freshIpState "203.0.113.9" (0 :: [1, 2, 3, 4, 5, 6, 7, 8]))
        "203.0.113.9" = false ∧
    isBlocked (recordOutcome
        (failSeq freshIpState "203.0.113.9" (0 :: [1, 2, 3, 4, 5, 6, 7, 8]))
        "203.0.113.9" false 9) "203.0.113.9" = true :=
  ⟨⟨by decide, by decide, by decide⟩,
   (ip_block_threshold "203.0.113.9" 0 [1, 2, 3, 4, 5, 6, 7, 8] 9
      (by decide) (by decide) (by decide)).1,
   (ip_block_threshold "203.0.113.9" 0 [1, 2, 3, 4, 5, 6, 7, 8] 9
      (by decide) (by decide) (by decide)).2.1⟩

/-! ## Helper lemmas about the startup configuration -/

lemma validateEnvironment_prod_inv {env : EnvVars} (h : env.nodeEnv = some "production")
    (hok : validateEnvironment env = .ok ()) :
    32 ≤ (env.jwtSecretVar.getD "").length := by
  by_cases h2 : env.nodeEnv = some "production" ∧ (env.jwtSecretVar.getD "").length < 32
  · rw [validateEnvironment, if_neg (by rw [h]; simp), if_pos h2] at hok
    exact absurd hok (by simp)
  · have := not_and.mp h2 h
    omega

lemma generateSecureSecret_prod_inv {env : EnvVars} {s : String}
    (h : env.nodeEnv = some "production") (hok : generateSecureSecret env = .ok s) :
    s = env.jwtSecretVar.getD "" := by
  by_cases h1 : (env.jwtSecretVar.getD "") ≠ ""
  · rw [generateSecureSecret, if_pos h1] at hok
    exact ((Except.ok.injEq ..).mp hok).symm
  · rw [generateSecureSecret, if_neg h1, if_pos h] at hok
    exact absurd hok (by simp)

/-- C8 counterexample: a production environment with everything valid but
the token-lifetime variable unset (or unparsable) starts up successfully,
with the lifetime silently falling back to 7d (and parseJwtExpiration falls
back to seven days at use time for the unparsable value); there is no fatal
startup error. -/
theorem config_lifetime_fallback_cex :
    (loadConfig prodEnvNoLifetime).toOption.map EnvironmentConfig.jwtExpiresIn
      = some "7d" ∧
    (loadConfig prodEnvBadLifetime).toOption.map EnvironmentConfig.jwtExpiresIn
      = some "nonsense" ∧
    parseJwtExpiration "nonsense" = 604800000 := by
  refine ⟨by decide, by decide, by decide⟩

/-- C8 as amended: in production mode, a missing or shorter-than-32-char
signing secret is a fatal startup error, a missing allowed-origin list is
a fatal startup error, and any successful startup guarantees a secret of
length at least 32, no wildcard origin entry, and a bcrypt cost of at
least 10 — but the token lifetime string is never validated: it is taken
verbatim from the environment, defaulting to 7d when unset, with
unparsable values only falling back at use time. -/
theorem production_config_validation_amended (env : EnvVars)
    (h : env.nodeEnv = some "production") :
    ((env.jwtSecretVar.getD "").length < 32 → ∃ e, loadConfig env = .error e) ∧
    ((env.corsOriginsVar.getD "") = "" → ∃ e, loadConfig env = .error e) ∧
    (∀ cfg, loadConfig env = .ok cfg →
      32 ≤ cfg.jwtSecret.length ∧
      cfg.corsOrigins.contains "*" = false ∧
      (∀ n, cfg.bcryptRounds = some n → 10 ≤ n) ∧
      cfg.jwtExpiresIn = orD env.jwtExpiresInVar "7d") := by
  have hprodne : env.nodeEnv.getD "" = "production" := by rw [h]; rfl
  refine ⟨?_, ?_, ?_⟩
  · intro hshort
    have hv : validateEnvironment env
        = .error "JWT_SECRET must be at least 32 characters long in production" := by
      rw [validateEnvironment, if_neg (by rw [hprodne]; simp), if_pos ⟨h, hshort⟩]
    refine ⟨"JWT_SECRET must be at least 32 characters long in production", ?_⟩
    rw [loadConfig, hv]
  · intro hco
    by_cases hs : (env.jwtSecretVar.getD "").length < 32
    · have hv : validateEnvironment env
          = .error "JWT_SECRET must be at least 32 characters long in production" := by
        rw [validateEnvironment, if_neg (by rw [hprodne]; simp), if_pos ⟨h, hs⟩]
      refine ⟨"JWT_SECRET must be at least 32 characters long in production", ?_⟩
      rw [loadConfig, hv]
    · have hv : validateEnvironment env = .ok () := by
        rw [validateEnvironment, if_neg (by rw [hprodne]; simp),
          if_neg (by rw [not_and]; intro _; omega)]
      have hsne : (env.jwtSecretVar.getD "") ≠ "" := by
        intro he
        rw [he] at hs
        simp at hs
      have hsec : generateSecureSecret env = .ok (env.jwtSecretVar.getD "") := by
        rw [generateSecureSecret, if_pos hsne]
      have hcors : parseCorsOrigins env
          = .error "CORS_ORIGINS environment variable is required in production" := by
        rw [parseCorsOrigins, if_pos hco, if_neg (by rw [h]; simp)]
      refine ⟨"CORS_ORIGINS environment variable is required in production", ?_⟩
      rw [loadConfig, hv, hsec, hcors]
  · intro cfg hcfg
    simp only [loadConfig] at hcfg
    split at hcfg
    · exact absurd hcfg (by simp)
    · rename_i hval
      split at hcfg
      · exact absurd hcfg (by simp)
      · rename_i secret hsec
        split at hcfg
        · exact absurd hcfg (by simp)
        · rename_i origins horig
          split at hcfg
          · exact absurd hcfg (by simp)
          · rename_i hbc
            split at hcfg
            · split at hcfg
              · exact absurd hcfg (by simp)
              · rename_i hwild
                split at hcfg
                · exact absurd hcfg (by simp)
                · rename_i hweak
                  obtain rfl := (Except.ok.injEq ..).mp hcfg
                  have hsv := generateSecureSecret_prod_inv h hsec
                  refine ⟨?_, ?_, ?_, rfl⟩
                  · show 32 ≤ secret.length
                    rw [hsv]
                    exact validateEnvironment_prod_inv h hval
                  · show origins.contains "*" = false
                    simpa using hwild
                  · intro n hn
                    have hn2 : parseIntJs (orD env.bcryptRoundsVar "12") = some n := hn
                    rw [hn2] at hbc
                    simp only [decide_eq_true_eq] at hbc
                    omega
            · rename_i hprod
              exact absurd (by simp [orD, h]) hprod

/-- Witness for C8 as amended: in the concrete production environment with
a 5-character secret, startup fails, and in the valid production
environment the success guarantees hold. -/
theorem production_config_validation_witness :
    (prodEnvShortSecret.nodeEnv = some "production" ∧
      (prodEnvShortSecret.jwtSecretVar.getD "").length < 32 ∧
      ∃ e, loadConfig prodEnvShortSecret = .error e) ∧
    (prodEnvNoLifetime.nodeEnv = some "production" ∧
      ∃ cfg, loadConfig prodEnvNoLifetime = .ok cfg ∧ cfg.jwtExpiresIn = "7d") := by
  refine ⟨⟨rfl, by decide,
    (production_config_validation_amended prodEnvShortSecret rfl).1 (by decide)⟩,
    rfl, ?_⟩
  cases hc : loadConfig prodEnvNoLifetime with
  | error e =>
    have hsome : (loadConfig prodEnvNoLifetime).toOption.isSome = true := by decide
    rw [hc] at hsome
    simp [Except.toOption] at hsome
  | ok cfg =>
    refine ⟨cfg, rfl, ?_⟩
    exact ((production_config_validation_amended prodEnvNoLifetime rfl).2.2 cfg hc).2.2.2
